import Mathlib

/-!
Verification of the breast-cancer prediction app (`src/main.py`).

The app loads a fitted two-stage pipeline (a standard scaler followed by a
linear classifier), collects one numeric value per schema feature from a
sidebar form, and on submission renders a predicted label, a probability
pair, a risk tier string, and a top-10 feature-importance ranking.

The embedding below translates the app's own logic (risk-tier chain at
lines 158-160, importance computation at lines 190-197, the form loop at
lines 122-127) directly from the source.  The serialized pipeline artifact
(`breast_cancer_pipeline.pkl`) is not part of the source tree; its
behaviour (`predict`, `predict_proba`, the scaler transform, and the
dimension check performed by the fitted stages) is modelled from the spec.
Rational numbers stand in for IEEE doubles except where NaN semantics
matter, where an explicit `FVal` wrapper carries the NaN case.
-/

/-- A floating-point value as far as the risk-tier comparisons can observe
it: either an ordinary (finite) number, embedded as a rational, or NaN.
IEEE comparisons against NaN are false, which `fge` reproduces. -/
inductive FVal where
  | num (q : ℚ)
  | nan
deriving DecidableEq

/-- IEEE-style `>=` against a rational threshold: ordinary numbers compare
numerically, NaN compares false. -/
def fge (a : FVal) (c : ℚ) : Bool :=
  match a with
  | .num q => decide (c ≤ q)
  | .nan => false

/-- Embedding of `main.py` lines 158-160: the risk-tier conditional chain
`"High Risk ⚠️" if p>=0.8 else "Moderate Risk ⚠️" if p>=0.5 else "Low Risk ✅"`
applied to the malignant-class probability `p`. -/
def risk_text (p : FVal) : String :=
  if fge p (8/10) then "High Risk ⚠️"
  else if fge p (5/10) then "Moderate Risk ⚠️"
  else "Low Risk ✅"

/-- Embedding of `main.py` line 194: per-feature importance is the
classifier coefficient times the raw (unscaled) user input, elementwise. -/
def importanceScores (coefs xs : List ℚ) : List ℚ :=
  List.zipWith (· * ·) coefs xs

/-- Embedding of `main.py` lines 192-195: the importance table pairs each
feature name with its signed importance score, in schema order. -/
def importance_df (names : List String) (coefs xs : List ℚ) : List (String × ℚ) :=
  names.zip (importanceScores coefs xs)

/-- Comparison used to sort the importance table: non-increasing absolute
importance (`sort_values(by='AbsImportance', ascending=False)`). -/
def absDesc (a b : String × ℚ) : Bool :=
  decide (|b.2| ≤ |a.2|)

/-- Embedding of `main.py` lines 196-197: sort the importance table by
descending absolute importance and keep the first 10 rows. -/
def topImportance (names : List String) (coefs xs : List ℚ) : List (String × ℚ) :=
  ((importance_df names coefs xs).mergeSort absDesc).take 10

/-- Embedding of `main.py` lines 189-197 together with the capability
check `hasattr(classifier, "coef_")`: when the classifier exposes no
coefficient vector the ranking step is skipped and yields nothing. -/
def importanceRanking (coef : Option (List ℚ)) (names : List String) (xs : List ℚ) :
    List (String × ℚ) :=
  match coef with
  | none => []
  | some coefs => topImportance names coefs xs

/-- Modelled from the spec: the serialized pipeline artifact
`breast_cancer_pipeline.pkl` (absent from `src/`) is a fitted standard
scaler followed by a linear (logistic-regression-style) classifier.
`feature_names_in_`, `mean_`, `scale_` belong to the scaler stage;
`weights`/`intercept_` are the classifier's fitted parameters (the row
`coef_[0]` and intercept).  `hasCoef` records the capability probed by
`hasattr(classifier, "coef_")`: classifier variants without a coefficient
vector still classify, but expose nothing for the importance ranking. -/
structure Pipeline where
  feature_names_in_ : List String
  mean_ : List ℚ
  scale_ : List ℚ
  weights : List ℚ
  intercept_ : ℚ
  hasCoef : Bool

/-- Modelled from the spec: the scaler stage transforms each coordinate to
`(x - mean) / scale`. -/
def Pipeline.scaled (P : Pipeline) (xs : List ℚ) : List ℚ :=
  List.zipWith (fun x (ms : ℚ × ℚ) => (x - ms.1) / ms.2) xs (P.mean_.zip P.scale_)

/-- Dot product of two rational lists. -/
def dotQ (v w : List ℚ) : ℚ :=
  (List.zipWith (· * ·) v w).sum

/-- Modelled from the spec: the classifier's raw decision score on the
scaled input. -/
def Pipeline.decision (P : Pipeline) (xs : List ℚ) : ℚ :=
  dotQ P.weights (P.scaled xs) + P.intercept_

/-- Logistic sigmoid, the link function of the linear classifier. -/
noncomputable def sigmoid (z : ℝ) : ℝ :=
  1 / (1 + Real.exp (-z))

/-- Modelled from the spec: `pipeline.predict_proba(x)[0]` returns the
two-class probability row, indexed Benign (class 0) then Malignant
(class 1); for the linear classifier this is `(1 - σ(z), σ(z))` with `z`
the decision score. -/
noncomputable def Pipeline.predict_proba (P : Pipeline) (xs : List ℚ) : ℝ × ℝ :=
  (1 - sigmoid (P.decision xs), sigmoid (P.decision xs))

/-- Modelled from the spec: `pipeline.predict(x)[0]` is the malignant
indicator, true exactly when the decision score is nonnegative (malignant
probability at least one half). -/
def Pipeline.predict (P : Pipeline) (xs : List ℚ) : Bool :=
  decide (0 ≤ P.decision xs)

/-- Everything the predict-click branch of `main.py` (lines 132-202)
produces for one submission: label, probability pair, risk tier text, and
the importance ranking (empty when the capability check fails). -/
structure Output where
  label : Bool
  proba : ℝ × ℝ
  risk : String
  importance : List (String × ℚ)

/-- The error message standing for the dimension-mismatch failure raised
by the fitted stages. -/
def dimError : String := "dimension mismatch"

/-- Modelled from the spec together with `main.py` lines 132-202: one
submission.  The fitted stages reject a vector whose length differs from
the schema length (fatal for this submission only: nothing is rendered);
otherwise the label, probabilities, risk tier and importance ranking are
produced.  The risk tier is computed from the malignant probability
exactly as in lines 158-160; since the modelled probability is an ordinary
(finite) number, the `FVal` embedding is entered through `.num` via the
rational threshold comparisons on the sigmoid value. -/
noncomputable def runPrediction (P : Pipeline) (xs : List ℚ) : Except String Output :=
  if xs.length = P.feature_names_in_.length then
    .ok { label := P.predict xs
          proba := P.predict_proba xs
          risk :=
            if (8/10 : ℝ) ≤ (P.predict_proba xs).2 then "High Risk ⚠️"
            else if (5/10 : ℝ) ≤ (P.predict_proba xs).2 then "Moderate Risk ⚠️"
            else "Low Risk ✅"
          importance :=
            importanceRanking (if P.hasCoef then some P.weights else none)
              P.feature_names_in_ xs }
  else
    .error dimError

/-- Embedding of `main.py` lines 122-127: the sidebar form renders one
numeric input per schema feature name, in schema order, and collects the
values into `user_input` by appending one value per feature.  `vals` gives
the number entered in the widget labelled by each feature name. -/
def formInput (P : Pipeline) (vals : String → ℚ) : List ℚ :=
  P.feature_names_in_.map vals

/-! Helper lemmas about the risk-tier chain. -/

/-- On a finite probability at least 0.8, the chain yields the high tier. -/
lemma risk_text_num_high {p : ℚ} (h : 8/10 ≤ p) :
    risk_text (.num p) = "High Risk ⚠️" := by
  simp [risk_text, fge, h]

/-- On a finite probability in [0.5, 0.8), the chain yields the moderate tier. -/
lemma risk_text_num_mod {p : ℚ} (h1 : 5/10 ≤ p) (h2 : p < 8/10) :
    risk_text (.num p) = "Moderate Risk ⚠️" := by
  have hn : ¬ (8/10 : ℚ) ≤ p := not_le.mpr h2
  simp [risk_text, fge, h1, hn]

/-- On a finite probability below 0.5, the chain yields the low tier. -/
lemma risk_text_num_low {p : ℚ} (h : p < 5/10) :
    risk_text (.num p) = "Low Risk ✅" := by
  have h1 : ¬ (8/10 : ℚ) ≤ p := by intro hc; linarith
  have h2 : ¬ (5/10 : ℚ) ≤ p := not_le.mpr h
  simp [risk_text, fge, h1, h2]

/-- C1: the risk tier is derived from the malignant-class probability `p`
exactly as: `p ≥ 0.8` gives "High Risk", `0.5 ≤ p < 0.8` gives "Moderate
Risk", `p < 0.5` gives "Low Risk", each boundary inclusive on the lower
bound of its tier; in particular `p = 0.8` is High Risk, `p = 0.79999` and
`p = 0.5` are Moderate Risk, and `p = 0.49999` is Low Risk. -/
theorem risk_text_tiers :
    (∀ p : ℚ, risk_text (.num p) = "High Risk ⚠️" ↔ 8/10 ≤ p) ∧
    (∀ p : ℚ, risk_text (.num p) = "Moderate Risk ⚠️" ↔ 5/10 ≤ p ∧ p < 8/10) ∧
    (∀ p : ℚ, risk_text (.num p) = "Low Risk ✅" ↔ p < 5/10) ∧
    risk_text (.num (8/10)) = "High Risk ⚠️" ∧
    risk_text (.num (79999/100000)) = "Moderate Risk ⚠️" ∧
    risk_text (.num (5/10)) = "Moderate Risk ⚠️" ∧
    risk_text (.num (49999/100000)) = "Low Risk ✅" := by
  have hhm : ("High Risk ⚠️" : String) ≠ "Moderate Risk ⚠️" := by decide
  have hhl : ("High Risk ⚠️" : String) ≠ "Low Risk ✅" := by decide
  have hml : ("Moderate Risk ⚠️" : String) ≠ "Low Risk ✅" := by decide
  refine ⟨?_, ?_, ?_, ?_, ?_, ?_, ?_⟩
  · intro p
    constructor
    · intro h
      by_contra hc
      push_neg at hc
      rcases lt_or_le p (5/10) with hlow | hmid
      · rw [risk_text_num_low hlow] at h
        exact hhl h.symm
      · rw [risk_text_num_mod hmid hc] at h
        exact hhm h.symm
    · exact risk_text_num_high
  · intro p
    constructor
    · intro h
      constructor
      · by_contra hc
        push_neg at hc
        rw [risk_text_num_low hc] at h
        exact hml h.symm
      · by_contra hc
        push_neg at hc
        rw [risk_text_num_high hc] at h
        exact hhm h
    · intro hpq
      exact risk_text_num_mod hpq.1 hpq.2
  · intro p
    constructor
    · intro h
      by_contra hc
      push_neg at hc
      rcases lt_or_le p (8/10) with hmid | hhigh
      · rw [risk_text_num_mod hc hmid] at h
        exact hml h
      · rw [risk_text_num_high hhigh] at h
        exact hhl h
    · exact risk_text_num_low
  · exact risk_text_num_high (by norm_num)
  · exact risk_text_num_mod (by norm_num) (by norm_num)
  · exact risk_text_num_mod (by norm_num) (by norm_num)
  · exact risk_text_num_low (by norm_num)

/-- C10: the risk-tier computation is total over every floating-point
malignant probability, not only over [0,1]: any `p ≥ 0.8` (including
`p > 1`) yields "High Risk", any `p < 0.5` (including `p < 0`) yields
"Low Risk", and a NaN probability falls through both comparisons and
yields "Low Risk" rather than an error. -/
theorem risk_text_total :
    (∀ p : ℚ, 8/10 ≤ p → risk_text (.num p) = "High Risk ⚠️") ∧
    (∀ p : ℚ, p < 5/10 → risk_text (.num p) = "Low Risk ✅") ∧
    risk_text (.num 2) = "High Risk ⚠️" ∧
    risk_text (.num (-1)) = "Low Risk ✅" ∧
    risk_text .nan = "Low Risk ✅" := by
  refine ⟨fun p h => risk_text_num_high h, fun p h => risk_text_num_low h, ?_, ?_, rfl⟩
  · exact risk_text_num_high (by norm_num)
  · exact risk_text_num_low (by norm_num)

/-- Witness for `risk_text_total` at the concrete out-of-range
probabilities 1.5 and -2. -/
theorem risk_text_total_witness :
    ((8/10 : ℚ) ≤ 3/2 ∧ risk_text (.num (3/2)) = "High Risk ⚠️") ∧
    ((-2 : ℚ) < 5/10 ∧ risk_text (.num (-2)) = "Low Risk ✅") :=
  ⟨⟨by norm_num, risk_text_total.1 (3/2) (by norm_num)⟩,
   ⟨by norm_num, risk_text_total.2.1 (-2) (by norm_num)⟩⟩

/-! Helper lemma for elementwise products of lists. -/

/-- Entry `i` of an elementwise product is the product of the entries. -/
lemma getD_zipWith_mul (coefs xs : List ℚ) (i : ℕ)
    (h1 : i < coefs.length) (h2 : i < xs.length) :
    (List.zipWith (· * ·) coefs xs).getD i 0 = coefs.getD i 0 * xs.getD i 0 := by
  induction coefs generalizing xs i with
  | nil => simp at h1
  | cons c cs ih =>
    cases xs with
    | nil => simp at h2
    | cons x xs =>
      cases i with
      | zero => simp
      | succ n =>
        simp only [List.zipWith_cons_cons, List.getD_cons_succ]
        exact ih xs n (by simpa using h1) (by simpa using h2)

/-- C2: for every feature, the importance score equals the classifier's
coefficient for that feature multiplied by the user-supplied raw input
value for that feature, sign preserved; for schema [A, B], coefficients
[2.0, -1.0] and input [3.0, 4.0] the importances are A: 6.0 and B: -4.0,
ranked A before B by absolute value. -/
theorem importance_pointwise :
    (∀ (coefs xs : List ℚ) (i : ℕ), i < coefs.length → i < xs.length →
      (importanceScores coefs xs).getD i 0 = coefs.getD i 0 * xs.getD i 0) ∧
    importance_df ["A", "B"] [2, -1] [3, 4] = [("A", 6), ("B", -4)] ∧
    topImportance ["A", "B"] [2, -1] [3, 4] = [("A", 6), ("B", -4)] := by
  refine ⟨fun coefs xs i h1 h2 => getD_zipWith_mul coefs xs i h1 h2, ?_, ?_⟩
  · norm_num [importance_df, importanceScores]
  · norm_num [topImportance, importance_df, importanceScores, List.mergeSort, List.merge,
      absDesc]

/-- Witness for `importance_pointwise` at index 0 of the scenario
coefficients [2, -1] and inputs [3, 4]. -/
theorem importance_pointwise_witness :
    (0 < ([2, -1] : List ℚ).length ∧ 0 < ([3, 4] : List ℚ).length ∧
      (importanceScores [2, -1] [3, 4]).getD 0 0 =
        ([2, -1] : List ℚ).getD 0 0 * ([3, 4] : List ℚ).getD 0 0) :=
  ⟨by norm_num, by norm_num,
   importance_pointwise.1 [2, -1] [3, 4] 0 (by norm_num) (by norm_num)⟩

/-! Helper lemmas about the sort comparison. -/

/-- The descending-absolute-value comparison is transitive. -/
lemma absDesc_trans (a b c : String × ℚ) (hab : absDesc a b = true)
    (hbc : absDesc b c = true) : absDesc a c = true := by
  simp only [absDesc, decide_eq_true_eq] at *
  exact le_trans hbc hab

/-- The descending-absolute-value comparison is total. -/
lemma absDesc_total (a b : String × ℚ) : (absDesc a b || absDesc b a) = true := by
  simp only [absDesc, Bool.or_eq_true, decide_eq_true_eq]
  exact le_total |b.2| |a.2|

/-- C3: when the classifier exposes a coefficient vector the importance
ranking returns at most 10 entries sorted by non-increasing absolute
importance; when the classifier lacks a coefficient vector the ranking is
empty (the step is skipped).  The bound and sortedness hold for every
capability value, and the no-coefficient case is exactly the empty list. -/
theorem importance_ranking_shape :
    (∀ (names : List String) (xs : List ℚ), importanceRanking none names xs = []) ∧
    (∀ (coef : Option (List ℚ)) (names : List String) (xs : List ℚ),
      (importanceRanking coef names xs).length ≤ 10) ∧
    (∀ (coef : Option (List ℚ)) (names : List String) (xs : List ℚ),
      List.Pairwise (fun a b : String × ℚ => |b.2| ≤ |a.2|)
        (importanceRanking coef names xs)) := by
  refine ⟨fun names xs => rfl, ?_, ?_⟩
  · intro coef names xs
    cases coef with
    | none => simp [importanceRanking]
    | some coefs =>
      simp only [importanceRanking, topImportance]
      rw [List.length_take]
      exact min_le_left _ _
  · intro coef names xs
    cases coef with
    | none => simp [importanceRanking]
    | some coefs =>
      have hsorted : List.Pairwise (fun a b : String × ℚ => absDesc a b = true)
          ((importance_df names coefs xs).mergeSort absDesc) :=
        List.sorted_mergeSort absDesc_trans absDesc_total _
      have htake : List.Pairwise (fun a b : String × ℚ => absDesc a b = true)
          (importanceRanking (some coefs) names xs) :=
        List.Pairwise.sublist (List.take_sublist 10 _) hsorted
      exact htake.imp (fun hab => by simpa [absDesc] using hab)

/-! Helper lemmas about the sigmoid link function. -/

/-- The sigmoid value is positive. -/
lemma sigmoid_pos (z : ℝ) : 0 < sigmoid z := by
  unfold sigmoid
  positivity

/-- The sigmoid value is at most one. -/
lemma sigmoid_le_one (z : ℝ) : sigmoid z ≤ 1 := by
  unfold sigmoid
  rw [div_le_one (by positivity)]
  linarith [Real.exp_pos (-z)]

/-- C5: for every feature vector, the probability row returned by the
classify step is a pair of values each in [0,1] summing to 1, indexed
Benign (first) then Malignant (second); in this real-valued model the sum
is exactly 1. -/
theorem predict_proba_valid_distribution (P : Pipeline) (xs : List ℚ) :
    0 ≤ (P.predict_proba xs).1 ∧ (P.predict_proba xs).1 ≤ 1 ∧
    0 ≤ (P.predict_proba xs).2 ∧ (P.predict_proba xs).2 ≤ 1 ∧
    (P.predict_proba xs).1 + (P.predict_proba xs).2 = 1 := by
  unfold Pipeline.predict_proba
  have h1 := sigmoid_pos ((P.decision xs : ℚ) : ℝ)
  have h2 := sigmoid_le_one ((P.decision xs : ℚ) : ℝ)
  refine ⟨by simpa using h2, ?_, le_of_lt h1, h2, by ring⟩
  simp only
  linarith

/-- C6: the classify step is deterministic — two submissions with
identical input vectors against the same loaded artifact return identical
labels and identical probability pairs; classification is a pure function
of the input vector and the fixed artifact. -/
theorem classify_deterministic (P : Pipeline) (xs ys : List ℚ) (h : xs = ys) :
    P.predict xs = P.predict ys ∧ P.predict_proba xs = P.predict_proba ys := by
  subst h
  exact ⟨rfl, rfl⟩

/-- Witness for `classify_deterministic` on a concrete two-feature
pipeline and a repeated concrete input. -/
theorem classify_deterministic_witness :
    ([1, 2] : List ℚ) = [1, 2] ∧
    (Pipeline.mk ["a", "b"] [0, 0] [1, 1] [1, -1] 0 true).predict [1, 2] =
      (Pipeline.mk ["a", "b"] [0, 0] [1, 1] [1, -1] 0 true).predict [1, 2] ∧
    (Pipeline.mk ["a", "b"] [0, 0] [1, 1] [1, -1] 0 true).predict_proba [1, 2] =
      (Pipeline.mk ["a", "b"] [0, 0] [1, 1] [1, -1] 0 true).predict_proba [1, 2] :=
  ⟨rfl,
   (classify_deterministic (Pipeline.mk ["a", "b"] [0, 0] [1, 1] [1, -1] 0 true)
      [1, 2] [1, 2] rfl).1,
   (classify_deterministic (Pipeline.mk ["a", "b"] [0, 0] [1, 1] [1, -1] 0 true)
      [1, 2] [1, 2] rfl).2⟩

/-- C7: when the classifier lacks a coefficient vector, the
importance-ranking step is not an error — a correctly-sized submission
still succeeds, its importance result set is empty (so the chart is
silently skipped), and the rest of the prediction output (label and
probability pair) is still produced. -/
theorem no_coef_skips_importance (P : Pipeline) (xs : List ℚ)
    (hcap : P.hasCoef = false) (hlen : xs.length = P.feature_names_in_.length) :
    ∃ o : Output, runPrediction P xs = .ok o ∧ o.importance = [] ∧
      o.label = P.predict xs ∧ o.proba = P.predict_proba xs := by
  unfold runPrediction
  rw [if_pos hlen]
  refine ⟨_, rfl, ?_, rfl, rfl⟩
  simp [hcap, importanceRanking]

/-- Witness for `no_coef_skips_importance` on a concrete one-feature
pipeline without coefficients and a length-one input. -/
theorem no_coef_skips_importance_witness :
    (Pipeline.mk ["a"] [0] [1] [1] 0 false).hasCoef = false ∧
    ([5] : List ℚ).length = (Pipeline.mk ["a"] [0] [1] [1] 0 false).feature_names_in_.length ∧
    (∃ o : Output, runPrediction (Pipeline.mk ["a"] [0] [1] [1] 0 false) [5] = .ok o ∧
      o.importance = [] ∧
      o.label = (Pipeline.mk ["a"] [0] [1] [1] 0 false).predict [5] ∧
      o.proba = (Pipeline.mk ["a"] [0] [1] [1] 0 false).predict_proba [5]) :=
  ⟨rfl, rfl, no_coef_skips_importance (Pipeline.mk ["a"] [0] [1] [1] 0 false) [5] rfl rfl⟩

/-- C8: a submission whose vector length differs from the schema length
fails for that submission only — no prediction result is produced (the
vector is neither truncated nor padded), and because the loaded artifact
is immutable and each submission is handled independently, any subsequent
submission with the correct dimensionality still succeeds. -/
theorem dim_mismatch_fails_submission (P : Pipeline) (xs : List ℚ)
    (h : xs.length ≠ P.feature_names_in_.length) :
    runPrediction P xs = .error dimError ∧
    ∀ ys : List ℚ, ys.length = P.feature_names_in_.length →
      ∃ o : Output, runPrediction P ys = .ok o := by
  constructor
  · unfold runPrediction
    rw [if_neg h]
  · intro ys hy
    unfold runPrediction
    rw [if_pos hy]
    exact ⟨_, rfl⟩

/-- Witness for `dim_mismatch_fails_submission`: a length-one vector
against a two-feature pipeline fails, and a length-two vector then
succeeds. -/
theorem dim_mismatch_fails_submission_witness :
    ([0] : List ℚ).length ≠
      (Pipeline.mk ["a", "b"] [0, 0] [1, 1] [1, -1] 0 true).feature_names_in_.length ∧
    runPrediction (Pipeline.mk ["a", "b"] [0, 0] [1, 1] [1, -1] 0 true) [0] =
      .error dimError ∧
    (([0, 0] : List ℚ).length =
        (Pipeline.mk ["a", "b"] [0, 0] [1, 1] [1, -1] 0 true).feature_names_in_.length ∧
      ∃ o : Output,
        runPrediction (Pipeline.mk ["a", "b"] [0, 0] [1, 1] [1, -1] 0 true) [0, 0] = .ok o) :=
  ⟨by simp,
   (dim_mismatch_fails_submission (Pipeline.mk ["a", "b"] [0, 0] [1, 1] [1, -1] 0 true)
      [0] (by simp)).1,
   rfl,
   (dim_mismatch_fails_submission (Pipeline.mk ["a", "b"] [0, 0] [1, 1] [1, -1] 0 true)
      [0] (by simp)).2 [0, 0] rfl⟩

/-- C9: the form builds the input vector by appending one numeric value
per schema feature name, in schema order, so the vector handed to the
prediction pipeline always has exactly one entry per schema feature; the
dimension-mismatch failure branch is unreachable through the app's own
form interface. -/
theorem form_input_matches_schema (P : Pipeline) (vals : String → ℚ) :
    (formInput P vals).length = P.feature_names_in_.length ∧
    ∃ o : Output, runPrediction P (formInput P vals) = .ok o := by
  have hlen : (formInput P vals).length = P.feature_names_in_.length :=
    List.length_map P.feature_names_in_ vals
  refine ⟨hlen, ?_⟩
  unfold runPrediction
  rw [if_pos hlen]
  exact ⟨_, rfl⟩
